import Mathlib

/-!
Shallow embedding of the `ssle_test` repository's scripts:
CSV statistics aggregation (`avg_time.py`, `lan_results/avg_time.py`,
`251120/wan_results/analyse.py`) and the deployment pipeline (`run.py`).
Python floats are modelled as rationals; fallible operations return `Option`;
per-file read/parse exceptions are modelled by an `Option` at the file level.
-/

namespace SSLE

/-- Python `round(x, 3)`: round to three decimal places (modelled over ℚ with
the library's nearest-integer rounding; the exact tie-break is immaterial
because samples are arbitrary rationals and both the code model and the spec
statements use this single function). -/
def round3 (q : ℚ) : ℚ := (round (q * 1000) : ℚ) / 1000

/-- Python `str.find(c, start)` for a single-character needle: index of the
first occurrence at position ≥ `start`, or `-1` when absent. -/
def pyFind (s : List Char) (c : Char) (start : ℕ) : Int :=
  match (s.drop start).findIdx? (fun a => a == c) with
  | some i => ((start + i : ℕ) : Int)
  | none => -1

/-- Normalize one Python slice endpoint against a length: negative indices
count from the end, and the result is clamped into `[0, len]`. -/
def pyIndexClamp (len : ℕ) (i : Int) : ℕ :=
  if i < 0 then (max ((len : Int) + i) 0).toNat else min i.toNat len

/-- Python `s[a:b]` slice semantics on a character list. -/
def pySlice (s : List Char) (a b : Int) : List Char :=
  (s.take (pyIndexClamp s.length b)).drop (pyIndexClamp s.length a)

/-- Base-10 value of a digit list; `none` if any character is not a digit.
Note the empty list yields `some 0`; callers guard non-emptiness. -/
def digitsVal (l : List Char) : Option ℕ :=
  l.foldl
    (fun acc c =>
      match acc with
      | none => none
      | some v => if c.isDigit then some (v * 10 + (c.toNat - 48)) else none)
    (some 0)

/-- Python `int(str)` for base 10: strips surrounding spaces, accepts one
optional sign, then decimal digits; `none` models a raised `ValueError`.
(Digit-group underscores, irrelevant to every input arising here, are
rejected like any other non-digit.) -/
def pyInt (s : List Char) : Option Int :=
  let t := ((s.dropWhile (fun c => c == ' ')).reverse.dropWhile (fun c => c == ' ')).reverse
  match t with
  | [] => none
  | '-' :: rest =>
      if rest.isEmpty then none else (digitsVal rest).map (fun v => -(v : Int))
  | '+' :: rest =>
      if rest.isEmpty then none else (digitsVal rest).map (fun v => (v : Int))
  | l => (digitsVal l).map (fun v => (v : Int))

/-- `fnmatch`-style matching for the glob patterns used by the scripts
(literal characters and the `*` wildcard only; the repository's patterns
contain no other metacharacters). -/
def globMatch : List Char → List Char → Bool
  | [], t => t.isEmpty
  | '*' :: ps, t => t.tails.any (fun s => globMatch ps s)
  | p :: ps, t =>
      match t with
      | [] => false
      | c :: ts => p == c && globMatch ps ts

/-- Whether filename `nm` matches glob pattern `pat`. -/
def matchesGlob (pat nm : String) : Bool := globMatch pat.toList nm.toList

/-- Party-count extraction from a filename, from `avg_time.py` lines 27-34
(identical in all three aggregation scripts):
`p_index = filename.find("p") + 1`, `underscore_index = filename.find("_", p_index)`,
`int(filename[p_index:underscore_index])`; a `ValueError`/`IndexError` is
caught and yields `none` (the file is skipped with a warning). -/
def partyOf (name : String) : Option Int :=
  let s := name.toList
  let pIndex : Int := pyFind s 'p' 0 + 1
  let uIndex : Int := pyFind s '_' pIndex.toNat
  pyInt (pySlice s pIndex uIndex)

/-- Distinct party keys extracted from a list of filenames, ascending
(the scripts group into a dict and then iterate `sorted(party_groups.keys())`;
`dedup` keeps the distinct keys, `insertionSort` models Python `sorted`,
which agrees with any comparison sort on distinct keys). -/
def partyKeys (names : List String) : List Int :=
  ((names.filterMap partyOf).dedup).insertionSort (· ≤ ·)

/-- The per-party grouping `party_groups`: for each discovered key, the files
whose parsed party count equals it, in discovery order. -/
def groupFiles (names : List String) : List (Int × List String) :=
  (partyKeys names).map (fun k => (k, names.filter (fun nm => partyOf nm == some k)))

/-- One data row of a results CSV for the variants keyed by `Round` and
`Time_ms` (`avg_time.py` and `lan_results/avg_time.py`). -/
structure LanRow where
  round : Int
  time_ms : ℚ
deriving DecidableEq

/-- Per-file sample accumulation, the inner loop of
`analyze_benchmark_results`: each file is read inside `try`; a file whose
read or column access raises (modelled `none`) is skipped and the loop
continues; otherwise the rows with the given `Round` marker contribute their
selected value, extending the accumulator in file order. -/
def collectSamples {α : Type} (keep : α → Bool) (sel : α → ℚ)
    (files : List (Option (List α))) : List ℚ :=
  files.foldl
    (fun acc f =>
      match f with
      | none => acc
      | some rows => acc ++ (rows.filter keep).map sel)
    []

/-- Spec-side description of the same collection: all selected samples of all
well-formed files, flattened in file order. -/
def allSamples {α : Type} (keep : α → Bool) (sel : α → ℚ)
    (files : List (Option (List α))) : List ℚ :=
  (files.filterMap id).flatMap (fun rows => (rows.filter keep).map sel)

/-- Statistics reduction for one sample list, from `avg_time.py` lines 67-81:
`round(sum/len, 3)` when non-empty, else `0.0`. -/
def avgOf (ts : List ℚ) : ℚ := if ts.isEmpty then 0 else round3 (ts.sum / (ts.length : ℚ))

/-- Python `min` of a non-empty list; the sources only call it guarded by
non-emptiness and report `0.0` otherwise. -/
def minOf (ts : List ℚ) : ℚ :=
  match ts with
  | [] => 0
  | a :: rest => rest.foldl min a

/-- Python `max` of a non-empty list, with the same guard as `minOf`. -/
def maxOf (ts : List ℚ) : ℚ :=
  match ts with
  | [] => 0
  | a :: rest => rest.foldl max a

/-- Aggregate entry of the `lan_results/avg_time.py` variant. -/
structure LanStats where
  round1_avg : ℚ
  round2_avg : ℚ
  round1_count : ℕ
  round2_count : ℕ
deriving DecidableEq

/-- Per-group reduction of `lan_results/avg_time.py` (lines 46-83): markers
`Round == 1` and `Round == 2` on column `Time_ms`. -/
def lanGroupStats (files : List (Option (List LanRow))) : LanStats :=
  let t1 := collectSamples (fun r => r.round == 1) (fun r => r.time_ms) files
  let t2 := collectSamples (fun r => r.round == 2) (fun r => r.time_ms) files
  ⟨avgOf t1, avgOf t2, t1.length, t2.length⟩

/-- Aggregate entry of the top-level `avg_time.py` variant (with min/max). -/
structure SrcStats where
  round1_avg : ℚ
  round1_min : ℚ
  round1_max : ℚ
  round1_count : ℕ
  round2_avg : ℚ
  round2_min : ℚ
  round2_max : ℚ
  round2_count : ℕ
deriving DecidableEq

/-- Per-group reduction of the top-level `avg_time.py` (lines 47-92): note its
round markers are `Round == 0` (reported as round 1) and `Round == 1`
(reported as round 2), on column `Time_ms`. -/
def srcGroupStats (files : List (Option (List LanRow))) : SrcStats :=
  let t1 := collectSamples (fun r => r.round == 0) (fun r => r.time_ms) files
  let t2 := collectSamples (fun r => r.round == 1) (fun r => r.time_ms) files
  ⟨avgOf t1, minOf t1, maxOf t1, t1.length, avgOf t2, minOf t2, maxOf t2, t2.length⟩

/-- Glob pattern of the top-level `avg_time.py` (line 15, basename part). -/
def srcPattern : String := "p*_id*.csv"

/-- Glob pattern of `lan_results/avg_time.py` (line 9). -/
def lanPattern : String := "benchmark_results_p*_id*_lan.csv"

/-- Full aggregation pipeline of the top-level `avg_time.py`: glob filter,
group by parsed party count, then per-group statistics over the file
contents (`contents nm = none` models a file whose read or column access
raises). -/
def srcAnalyze (listing : List String) (contents : String → Option (List LanRow)) :
    List (Int × SrcStats) :=
  let files := listing.filter (matchesGlob srcPattern)
  (groupFiles files).map (fun g => (g.1, srcGroupStats (g.2.map contents)))

/-- Full aggregation pipeline of `lan_results/avg_time.py`. -/
def lanAnalyze (listing : List String) (contents : String → Option (List LanRow)) :
    List (Int × LanStats) :=
  let files := listing.filter (matchesGlob lanPattern)
  (groupFiles files).map (fun g => (g.1, lanGroupStats (g.2.map contents)))

/-- The peer-index bound of `251120/wan_results/analyse.py` line 43:
`log_n = int(round(math.log2(num_parties)))`, the nearest integer to
`log2 n` (for `n ≥ 1`).  Since `round(log2 n) = k ↔ 2^(2k-1) ≤ n² < 2^(2k+1)`,
this equals `(Nat.log2 (n * n) + 1) / 2`.  (For `n = 0` the Python call
raises; no claim touches that case.) -/
def logN (n : ℕ) : ℕ := (Nat.log2 (n * n) + 1) / 2

/-- The peer indices whose `SendToPeer{i}_ms` / `RecvFromPeer{i}_ms` columns
the wan analyser reads and aggregates: `range(log_n)`. -/
def peerIndices (n : ℕ) : List ℕ := List.range (logN n)

/-- One data row of a `251120/wan_results` CSV: `Round`, `TotalTime_ms`, and
per-peer send/receive columns (total functions model the well-formed files;
a file with a missing column raises during selection, before any sample is
accumulated, so it is modelled as `none` at the file level). -/
structure WanRow where
  round : Int
  totalTime_ms : ℚ
  sendToPeer : ℕ → ℚ
  recvFromPeer : ℕ → ℚ

/-- Aggregate entry of the `251120/wan_results/analyse.py` variant: the four
peer-average arrays have the fixed length 7 of the source's zero-initialised
`[0.0 for _ in range(7)]`. -/
structure WanStats where
  round1_avg : ℚ
  round2_avg : ℚ
  round1_count : ℕ
  round2_count : ℕ
  round1_send_avg : List ℚ
  round1_recv_avg : List ℚ
  round2_send_avg : List ℚ
  round2_recv_avg : List ℚ

/-- The 7-slot average array of `analyse.py` lines 107-127: slot `i` holds the
3-decimal mean of `times[i]` when `i < log_n` and that list is non-empty, and
keeps its initial `0.0` otherwise.  (The model is total; the source would
raise an IndexError only for `log_n > 7`, i.e. party counts ≥ 182, far
outside any use of the script.) -/
def peerAvgs (times : List (List ℚ)) : List ℚ :=
  (List.range 7).map (fun i =>
    match times[i]? with
    | some ts => avgOf ts
    | none => 0)

/-- Per-group reduction of `251120/wan_results/analyse.py` (lines 43-140):
markers `Round == 1` / `Round == 2` on `TotalTime_ms`, and per-peer
accumulation of columns `SendToPeer{i}_ms` / `RecvFromPeer{i}_ms` for
`i` in `peerIndices num_parties`.  (The source extends all peer lists file by
file; since each file contributes its column-`i` samples to `times[i]` in
file order, each `times[i]` equals the per-index collection used here.) -/
def wanGroupStats (n : ℕ) (files : List (Option (List WanRow))) : WanStats :=
  let t1 := collectSamples (fun r => r.round == 1) (fun r => r.totalTime_ms) files
  let t2 := collectSamples (fun r => r.round == 2) (fun r => r.totalTime_ms) files
  ⟨avgOf t1, avgOf t2, t1.length, t2.length,
    peerAvgs ((peerIndices n).map (fun i =>
      collectSamples (fun r => r.round == 1) (fun r => r.sendToPeer i) files)),
    peerAvgs ((peerIndices n).map (fun i =>
      collectSamples (fun r => r.round == 1) (fun r => r.recvFromPeer i) files)),
    peerAvgs ((peerIndices n).map (fun i =>
      collectSamples (fun r => r.round == 2) (fun r => r.sendToPeer i) files)),
    peerAvgs ((peerIndices n).map (fun i =>
      collectSamples (fun r => r.round == 2) (fun r => r.recvFromPeer i) files))⟩

/-- A CSV cell: integer column (`NumParties`, record counts) or float column
(the averages), as pandas writes and re-reads them. -/
abbrev Cell := Int ⊕ ℚ

/-- Fixed header of `lan_results/avg_time.py` `save_results_to_csv`
(lines 105-115): party count first, record counts last. -/
def lanHeader : List String :=
  ["NumParties", "Round1_Avg_Time_ms", "Round2_Avg_Time_ms",
   "Round1_Record_Count", "Round2_Record_Count"]

/-- One output row in that fixed column order. -/
def lanRowOf (p : Int) (s : LanStats) : List Cell :=
  [.inl p, .inr s.round1_avg, .inr s.round2_avg,
   .inl (s.round1_count : Int), .inl (s.round2_count : Int)]

/-- Python `sorted(results.items(), key=lambda x: x[0])`.  Python's sort is a
stable comparison sort; on the distinct keys of a dict every such sort
produces the same list, so insertion sort is a faithful model. -/
def sortByParty (results : List (Int × LanStats)) : List (Int × LanStats) :=
  results.insertionSort (fun a b => a.1 ≤ b.1)

/-- `save_results_to_csv` of `lan_results/avg_time.py` (lines 96-118): `none`
when `results` is empty (nothing is written), otherwise the header and one
row per group, sorted by ascending party count. -/
def save_results_to_csv (results : List (Int × LanStats)) :
    Option (List String × List (List Cell)) :=
  if results.isEmpty then none
  else some (lanHeader, (sortByParty results).map (fun pr => lanRowOf pr.1 pr.2))

/-- Re-reading one row of the written CSV: it must have exactly the five cells
in the fixed order, with integer party count and counts. -/
def readRow (row : List Cell) : Option (Int × LanStats) :=
  match row with
  | [.inl p, .inr a1, .inr a2, .inl c1, .inl c2] =>
      if 0 ≤ c1 ∧ 0 ≤ c2 then some (p, ⟨a1, a2, c1.toNat, c2.toNat⟩) else none
  | _ => none

/-- Re-reading the written rows. -/
def readResults (rows : List (List Cell)) : List (Int × LanStats) :=
  rows.filterMap readRow

/-- The remote file server's observable state for one path: the status of a
`HEAD` request (`none` models a raised request exception) and the value of
its `content-length` header when present.  `run.py` issues two `HEAD`s
(existence check, then size check); the model assumes a stable remote
between them, as the script implicitly does. -/
structure Remote where
  headStatus : Option ℕ
  contentLength : Option ℕ

/-- `run.py` `check_remote_file_exists` (lines 258-265): `HEAD` returned 200. -/
def check_remote_file_exists (r : Remote) : Bool :=
  r.headStatus == some 200

/-- `run.py` `compare_file_sizes` (lines 268-282): false when the local file
is missing or the `HEAD` raises; otherwise compare the local byte length with
`int(headers.get("content-length", 0))`. -/
def compare_file_sizes (localExists : Bool) (localSize : ℕ) (r : Remote) : Bool :=
  if !localExists then false
  else
    match r.headStatus with
    | none => false
    | some _ => localSize == r.contentLength.getD 0

/-- `run.py` `upload_to_dufs` (lines 285-320), returning
`(performedPut, reportedSuccess)`.  `putStatus = none` models a raised `PUT`
exception (the `PUT` was attempted). -/
def upload_to_dufs (localExists : Bool) (localSize : ℕ) (r : Remote)
    (putStatus : Option ℕ) : Bool × Bool :=
  if !localExists then (false, false)
  else if check_remote_file_exists r && compare_file_sizes localExists localSize r then
    (false, true)
  else
    match putStatus with
    | none => (true, false)
    | some s => (true, s == 200 || s == 201 || s == 204)

/-- The scan loop of `find_party_id`: check addresses in order, at most
`bound` of them, returning the 0-based index of the first exact match. -/
def scanIp (addrs : List String) (ip : String) (bound : ℕ) : Option ℕ :=
  match addrs, bound with
  | _, 0 => none
  | [], _ + 1 => none
  | a :: rest, b + 1 =>
      if a == ip then some 0 else (scanIp rest ip b).map (fun i => i + 1)

/-- `run.py` `find_party_id` (lines 209-240) on the stripped non-empty lines
of the config file: `none` models the caught exception path (e.g. an
unparseable first line); the scan is bounded by
`min(num_parties, len(lines) - 1)`; no match falls back to party id 0. -/
def find_party_id (lines : List String) (local_ip : String) : Option Int :=
  match lines with
  | [] => none
  | first :: rest =>
      match pyInt first.toList with
      | none => none
      | some n =>
          match scanIp rest local_ip (min n.toNat rest.length) with
          | some i => some (i : Int)
          | none => some 0

/-- `run.py` `validate_config` (lines 158-197) on the stripped non-empty
lines, returning `(valid, num_parties)`: empty file or unparseable first
line is fatal; fewer lines than `num_parties + 1` is fatal
("配置文件行数不足", a `print_error` and `return False, 0`); otherwise
success — malformed-looking addresses only warn. -/
def validate_config (lines : List String) : Bool × Int :=
  match lines with
  | [] => (false, 0)
  | first :: _ =>
      match pyInt first.toList with
      | none => (false, 0)
      | some n =>
          if (lines.length : Int) < n + 1 then (false, 0) else (true, n)

/-- `run.py` `upload_results` (lines 323-362): per-file outcomes are counted;
the batch reports success iff no file failed (and trivially when no result
file was found). -/
def upload_results (outcomes : List Bool) : Bool :=
  outcomes.all (fun b => b)

/-- The outcome parameters of one `main()` run (`run.py` lines 416-501): each
field is the result of the corresponding externally-visible step. -/
structure RunConfig where
  depsOk : Bool
  configUrl : Option String
  programUrl : Option String
  programDownloadOk : Bool
  configDownloadOk : Bool
  configLines : List String
  localIp : String
  benchmarkOk : Bool
  uploadOutcomes : List Bool

/-- Control flow of `main()`: early `False` on missing dependencies, missing
`CONFIG_URL`, failed config download, or failed validation; a failed
*program* download only warns; party-id resolution and the network toggles
do not affect the returned flag; uploads run only after a successful
benchmark and their outcome is logged but not returned. -/
def mainResult (c : RunConfig) : Bool :=
  if !c.depsOk then false
  else
    match c.configUrl with
    | none => false
    | some _ =>
        if !c.configDownloadOk then false
        else
          let v := validate_config c.configLines
          if !v.1 then false
          else
            let _pid := find_party_id c.configLines c.localIp
            let success := c.benchmarkOk
            let _uploadOk := if success then upload_results c.uploadOutcomes else true
            success

/-- `__main__` (lines 504-513): `sys.exit(0 if success else 1)`. -/
def exitCode (c : RunConfig) : ℕ :=
  if mainResult c then 0 else 1

/-- Spec-side statistics reducer sentence: "compute arithmetic mean over
collected samples, rounded to 3 decimal places; if the sample list is empty,
report 0.0" (spec §4.3). -/
def specMean (ts : List ℚ) : ℚ :=
  if ts = [] then 0 else round3 (ts.sum / (ts.length : ℚ))

/-- The file body of the end-to-end scenario: two rows with Round=1
(values 10.0, 20.0) and two rows with Round=2 (values 30.0, 40.0). -/
def demoRows : List LanRow := [⟨1, 10⟩, ⟨1, 20⟩, ⟨2, 30⟩, ⟨2, 40⟩]

/-- The scenario's directory listing as the claim states it. -/
def demoListing : List String := ["p4_id0_lan.csv", "p4_id1_lan.csv"]

/-- Both scenario files hold `demoRows`. -/
def demoContents : String → Option (List LanRow) := fun _ => some demoRows

/-- The scenario's listing renamed to the `lan_results` variant's actual
naming convention. -/
def demoListing2 : List String :=
  ["benchmark_results_p4_id0_lan.csv", "benchmark_results_p4_id1_lan.csv"]

/-- A pipeline run whose benchmark succeeds while every result-file upload
fails. -/
def demoRun : RunConfig :=
  ⟨true, some "cfg.txt", none, true, true,
    ["2", "10.0.0.1", "10.0.0.2"], "10.0.0.1", true, [false, false]⟩

theorem collect_go {α : Type} (keep : α → Bool) (sel : α → ℚ) :
    ∀ (files : List (Option (List α))) (init : List ℚ),
      files.foldl
        (fun acc f =>
          match f with
          | none => acc
          | some rows => acc ++ (rows.filter keep).map sel)
        init
      = init ++ allSamples keep sel files := by
  intro files
  induction files with
  | nil => intro init; simp [allSamples]
  | cons f fs ih =>
      intro init
      cases f with
      | none => simp [List.foldl_cons, ih, allSamples, List.filterMap_cons]
      | some rows =>
          simp [List.foldl_cons, ih, allSamples, List.filterMap_cons, List.append_assoc]

theorem collectSamples_eq_allSamples {α : Type} (keep : α → Bool) (sel : α → ℚ)
    (files : List (Option (List α))) :
    collectSamples keep sel files = allSamples keep sel files := by
  simpa using collect_go keep sel files []

theorem avgOf_eq_specMean (ts : List ℚ) : avgOf ts = specMean ts := by
  simp [avgOf, specMean, List.isEmpty_iff]

/-- C1: For every party-count group and round, the aggregation computes the
arithmetic mean of all collected samples rounded to 3 decimal places, and
when the sample list for a round is empty it reports a mean of 0.0 and a
count of 0, never an error or NaN — for both the `lan_results` variant
(markers Round=1/2) and the top-level variant (markers Round=0/1); the
reducers are total functions, so no input produces an error value. -/
theorem C1_mean_of_samples :
    (∀ files : List (Option (List LanRow)),
      (lanGroupStats files).round1_avg
          = specMean (allSamples (fun r => r.round == 1) (fun r => r.time_ms) files)
        ∧ (lanGroupStats files).round1_count
          = (allSamples (fun r => r.round == 1) (fun r => r.time_ms) files).length
        ∧ (lanGroupStats files).round2_avg
          = specMean (allSamples (fun r => r.round == 2) (fun r => r.time_ms) files)
        ∧ (lanGroupStats files).round2_count
          = (allSamples (fun r => r.round == 2) (fun r => r.time_ms) files).length)
    ∧ (∀ files : List (Option (List LanRow)),
      (srcGroupStats files).round1_avg
          = specMean (allSamples (fun r => r.round == 0) (fun r => r.time_ms) files)
        ∧ (srcGroupStats files).round1_count
          = (allSamples (fun r => r.round == 0) (fun r => r.time_ms) files).length
        ∧ (srcGroupStats files).round2_avg
          = specMean (allSamples (fun r => r.round == 1) (fun r => r.time_ms) files)
        ∧ (srcGroupStats files).round2_count
          = (allSamples (fun r => r.round == 1) (fun r => r.time_ms) files).length)
    ∧ specMean [] = 0 := by
  refine ⟨fun files => ?_, fun files => ?_, by simp [specMean]⟩
  · simp [lanGroupStats, collectSamples_eq_allSamples, avgOf_eq_specMean]
  · simp [srcGroupStats, collectSamples_eq_allSamples, avgOf_eq_specMean]

/-- C9: a file that fails to parse (modelled `none`) is skipped, contributes
zero samples to every accumulator, and all remaining files of the group are
still processed: inserting a failing file anywhere in a group leaves every
statistic of all three analyser variants unchanged. -/
theorem C9_failed_file_is_skipped :
    (∀ xs ys : List (Option (List LanRow)),
        lanGroupStats (xs ++ none :: ys) = lanGroupStats (xs ++ ys)
          ∧ srcGroupStats (xs ++ none :: ys) = srcGroupStats (xs ++ ys))
    ∧ (∀ (n : ℕ) (xs ys : List (Option (List WanRow))),
        wanGroupStats n (xs ++ none :: ys) = wanGroupStats n (xs ++ ys)) := by
  have hcoll : ∀ (α : Type) (keep : α → Bool) (sel : α → ℚ)
      (xs ys : List (Option (List α))),
      collectSamples keep sel (xs ++ none :: ys) = collectSamples keep sel (xs ++ ys) := by
    intro α keep sel xs ys
    simp [collectSamples_eq_allSamples, allSamples, List.filterMap_append,
      List.filterMap_cons]
  refine ⟨fun xs ys => ⟨?_, ?_⟩, fun n xs ys => ?_⟩
  · simp [lanGroupStats, hcoll]
  · simp [srcGroupStats, hcoll]
  · simp [wanGroupStats, hcoll]

theorem round3_intCast (n : ℤ) : round3 ((n : ℚ)) = (n : ℚ) := by
  have h : ((n : ℚ) * 1000) = ((n * 1000 : ℤ) : ℚ) := by push_cast; ring
  rw [round3, h, round_intCast]
  push_cast
  field_simp

theorem round3_num (n : ℤ) (q : ℚ) (h : q = (n : ℚ)) : round3 q = q := by
  rw [h]; exact round3_intCast n

theorem srcAnalyze_demo :
    srcAnalyze demoListing demoContents
      = [(4, srcGroupStats [some demoRows, some demoRows])] := by
  have h1 : demoListing.filter (matchesGlob srcPattern) = demoListing := by decide
  have h2 : groupFiles demoListing = [(4, demoListing)] := by decide
  simp only [srcAnalyze]
  rw [h1, h2]
  simp [demoContents, demoListing]

theorem srcGroupStats_demo :
    srcGroupStats [some demoRows, some demoRows]
      = ⟨0, 0, 0, 0, 15, 10, 20, 4⟩ := by
  have r15 : round3 (15 : ℚ) = 15 := round3_num 15 _ (by norm_num)
  have h15 : ((10 : ℚ) + (20 + (10 + 20))) / 4 = (15 : ℚ) := by norm_num
  simp [srcGroupStats, collectSamples, demoRows, avgOf, minOf, maxOf, h15, r15,
    min_def, max_def]
  norm_num

/-- C2 counterexample: with exactly the files `p4_id0_lan.csv` and
`p4_id1_lan.csv` holding two Round=1 rows (10.0, 20.0) and two Round=2 rows
(30.0, 40.0), no aggregation variant produces Round1 average 15.0 with count
4: these names match only the top-level variant's `p*_id*.csv` glob, and that
variant filters `Round == 0` for its first round, yielding a Round1 average
of 0.0 with count 0 (and Round2 average 15.0, not 35.0); the `lan_results`
variant's glob `benchmark_results_p*_id*_lan.csv` matches neither file, so it
produces no group at all. -/
theorem C2_counterexample :
    srcAnalyze demoListing demoContents
        = [(4, ⟨0, 0, 0, 0, 15, 10, 20, 4⟩)]
      ∧ (0 : ℚ) ≠ 15 ∧ (0 : ℕ) ≠ 4
      ∧ lanAnalyze demoListing demoContents = [] := by
  refine ⟨srcAnalyze_demo.trans (by rw [srcGroupStats_demo]), by norm_num, by norm_num, ?_⟩
  have h1 : demoListing.filter (matchesGlob lanPattern) = [] := by decide
  simp [lanAnalyze, h1, groupFiles, partyKeys]

theorem lanGroupStats_demo :
    lanGroupStats [some demoRows, some demoRows] = ⟨15, 35, 4, 4⟩ := by
  have r15 : round3 (15 : ℚ) = 15 := round3_num 15 _ (by norm_num)
  have r35 : round3 (35 : ℚ) = 35 := round3_num 35 _ (by norm_num)
  have h15 : ((10 : ℚ) + (20 + (10 + 20))) / 4 = (15 : ℚ) := by norm_num
  have h35 : ((30 : ℚ) + (40 + (30 + 40))) / 4 = (35 : ℚ) := by norm_num
  simp [lanGroupStats, collectSamples, demoRows, avgOf, h15, h35, r15, r35]

/-- C2 amended: the scenario holds once the two files carry the
`lan_results` variant's actual filenames `benchmark_results_p4_id{0,1}_lan.csv`:
that variant (round markers 1/2) aggregates them to a Round1 average of 15.0
with count 4 and a Round2 average of 35.0 with count 4 for party count 4. -/
theorem C2_amended_scenario :
    lanAnalyze demoListing2 demoContents = [(4, ⟨15, 35, 4, 4⟩)] := by
  have h1 : demoListing2.filter (matchesGlob lanPattern) = demoListing2 := by decide
  have h2 : groupFiles demoListing2 = [(4, demoListing2)] := by decide
  simp only [lanAnalyze]
  rw [h1, h2]
  simp [demoContents, demoListing2, lanGroupStats_demo]

/-- C3 counterexample: `prefix_p8_id3_wan.csv` does not yield party count 8.
The parser anchors on the *first* `p` of the filename (the one starting
`prefix`), takes the substring up to the next `_` — here `refix` — and the
`int()` conversion fails, so the file is skipped and belongs to no group. -/
theorem C3_counterexample :
    partyOf "prefix_p8_id3_wan.csv" ≠ some 8
      ∧ partyOf "prefix_p8_id3_wan.csv" = none
      ∧ groupFiles ["prefix_p8_id3_wan.csv"] = [] := by
  refine ⟨by decide, by decide, by decide⟩

/-- C3 amended: filename parsing extracts the integer token between the
*first* literal `p` of the filename and the next `_`; a name whose token is
parseable yields that party count (`p8_id3_wan.csv` and
`benchmark_results_p8_id3_wan.csv` yield 8), a name whose token is not
(such as `prefix_p8_id3_wan.csv`, whose token is `refix`) is skipped with a
warning, and any skipped name is excluded from every group. -/
theorem C3_amended_first_p_token :
    partyOf "p8_id3_wan.csv" = some 8
      ∧ partyOf "benchmark_results_p8_id3_wan.csv" = some 8
      ∧ partyOf "prefix_p8_id3_wan.csv" = none
      ∧ (∀ (names : List String) (nm : String) (g : Int × List String),
          partyOf nm = none → g ∈ groupFiles names → nm ∉ g.2) := by
  refine ⟨by decide, by decide, by decide, ?_⟩
  intro names nm g hnone hg hmem
  rcases List.mem_map.mp hg with ⟨k, _hk, rfl⟩
  have hp := List.of_mem_filter hmem
  rw [hnone] at hp
  simp at hp

theorem C3_amended_first_p_token_witness :
    partyOf "zz.csv" = none
      ∧ ((4 : Int), ["p4_id0.csv"]) ∈ groupFiles ["p4_id0.csv", "zz.csv"]
      ∧ "zz.csv" ∉ ["p4_id0.csv"] :=
  ⟨by decide, by decide,
    C3_amended_first_p_token.2.2.2 ["p4_id0.csv", "zz.csv"] "zz.csv"
      (4, ["p4_id0.csv"]) (by decide) (by decide)⟩

theorem logN_five : logN 5 = 2 := by
  have hlog : Nat.log2 25 = 4 := by
    rw [Nat.log2_eq_log_two]
    exact Nat.log_eq_of_pow_le_of_lt_pow (by norm_num) (by norm_num)
  simp [logN, hlog]

/-- C4 counterexample: for party count 5 the wan analyser reads the peer
columns for indices `range(int(round(log2 5))) = [0, 1]`, not the claimed
`0..⌈log2 5⌉-1 = [0, 1, 2]`. -/
theorem C4_counterexample :
    peerIndices 5 = [0, 1]
      ∧ Nat.clog 2 5 = 3
      ∧ peerIndices 5 ≠ List.range (Nat.clog 2 5) := by
  have hclog : Nat.clog 2 5 = 3 := by
    have h1 : Nat.clog 2 5 ≤ 3 := (Nat.le_pow_iff_clog_le (by norm_num)).mp (by norm_num)
    have h2 : 2 < Nat.clog 2 5 := (Nat.pow_lt_iff_lt_clog (by norm_num)).mp (by norm_num)
    omega
  have hp : peerIndices 5 = [0, 1] := by
    rw [peerIndices, logN_five]
    decide
  refine ⟨hp, hclog, ?_⟩
  rw [hp, hclog]
  decide

theorem logN_pow (k : ℕ) : logN (2 ^ k) = k := by
  have hmul : (2 : ℕ) ^ k * 2 ^ k = 2 ^ (k + k) := by rw [pow_add]
  rw [logN, hmul, Nat.log2_eq_log_two, Nat.log_pow (by norm_num)]
  omega

theorem peerAvgs_getElem_lt (times : List (List ℚ)) (i : ℕ) (h : i < 7) :
    (peerAvgs times)[i]?
      = some (match times[i]? with | some ts => avgOf ts | none => 0) := by
  rw [peerAvgs, List.getElem?_map, List.getElem?_range h]
  rfl

/-- C4 amended: for party count N the wan analyser reads and aggregates the
peer columns for exactly the indices `0 .. int(round(log2 N)) - 1` (nearest
integer, not ceiling): within the 7-slot output arrays, a slot at an index
at or beyond `round(log2 N)` always keeps its initial 0.0 while a slot below
it carries the aggregate of exactly that peer column; the nearest-integer
count agrees with the claimed `⌈log2 N⌉` whenever N is a power of two, and
party count 8 yields the 3 peer indices 0..2. -/
theorem C4_amended_round_log2 :
    (∀ k : ℕ, peerIndices (2 ^ k) = List.range (Nat.clog 2 (2 ^ k)))
      ∧ peerIndices 8 = [0, 1, 2]
      ∧ (∀ (n : ℕ) (files : List (Option (List WanRow))) (i : ℕ),
          i < 7 → logN n ≤ i →
          (wanGroupStats n files).round1_send_avg[i]? = some 0
            ∧ (wanGroupStats n files).round1_recv_avg[i]? = some 0
            ∧ (wanGroupStats n files).round2_send_avg[i]? = some 0
            ∧ (wanGroupStats n files).round2_recv_avg[i]? = some 0)
      ∧ (∀ (n : ℕ) (files : List (Option (List WanRow))) (i : ℕ),
          i < 7 → i < logN n →
          (wanGroupStats n files).round1_send_avg[i]?
            = some (avgOf (collectSamples (fun r => r.round == 1)
                (fun r => r.sendToPeer i) files))) := by
  have hnone : ∀ (n : ℕ) (i : ℕ) (g : ℕ → List ℚ), logN n ≤ i →
      ((peerIndices n).map g)[i]? = none := by
    intro n i g hi
    apply List.getElem?_eq_none
    simpa [peerIndices] using hi
  have hsome : ∀ (n : ℕ) (i : ℕ) (g : ℕ → List ℚ), i < logN n →
      ((peerIndices n).map g)[i]? = some (g i) := by
    intro n i g hi
    rw [peerIndices, List.getElem?_map, List.getElem?_range hi]
    rfl
  refine ⟨fun k => ?_, ?_, fun n files i h7 hi => ?_, fun n files i h7 hi => ?_⟩
  · rw [peerIndices, logN_pow, Nat.clog_pow 2 k (by norm_num)]
  · have h8 : logN 8 = 3 := logN_pow 3
    rw [peerIndices, h8]
    decide
  · refine ⟨?_, ?_, ?_, ?_⟩ <;>
      · show (peerAvgs _)[i]? = some 0
        rw [peerAvgs_getElem_lt _ i h7, hnone n i _ hi]
  · show (peerAvgs _)[i]? = some _
    rw [peerAvgs_getElem_lt _ i h7, hsome n i _ hi]

theorem C4_amended_round_log2_witness :
    (2 : ℕ) < 7 ∧ logN 3 ≤ 2
      ∧ (wanGroupStats 3 []).round1_send_avg[2]? = some 0
      ∧ (1 : ℕ) < 7 ∧ (1 : ℕ) < logN 3
      ∧ (wanGroupStats 3 []).round1_send_avg[1]?
          = some (avgOf (collectSamples (fun r => r.round == 1)
              (fun r => r.sendToPeer 1) ([] : List (Option (List WanRow))))) := by
  have hl3 : logN 3 = 2 := by
    have hlog : Nat.log2 9 = 3 := by
      rw [Nat.log2_eq_log_two]
      exact Nat.log_eq_of_pow_le_of_lt_pow (by norm_num) (by norm_num)
    simp [logN, hlog]
  refine ⟨by norm_num, by simp [hl3], ?_, by norm_num, by simp [hl3], ?_⟩
  · exact (C4_amended_round_log2.2.2.1 3 [] 2 (by norm_num) (by simp [hl3])).1
  · exact C4_amended_round_log2.2.2.2 3 [] 1 (by norm_num) (by simp [hl3])

/-- Branch characterization of `upload_to_dufs` for an existing local file:
skip-and-succeed exactly when the remote `HEAD` returned 200 and the reported
`content-length` (0 when the header is absent) equals the local size;
otherwise a `PUT` is attempted and its status decides the report. -/
theorem upload_to_dufs_cases (localSize : ℕ) (r : Remote) (putStatus : Option ℕ) :
    upload_to_dufs true localSize r putStatus
      = if r.headStatus = some 200 ∧ r.contentLength.getD 0 = localSize
        then (false, true)
        else (true,
          match putStatus with
          | none => false
          | some s => s == 200 || s == 201 || s == 204) := by
  obtain ⟨hs, cl⟩ := r
  cases hs with
  | none => cases putStatus <;>
      simp [upload_to_dufs, check_remote_file_exists, compare_file_sizes]
  | some s =>
      by_cases h2 : s = 200
      · subst h2
        by_cases hsz : cl.getD 0 = localSize
        · simp [upload_to_dufs, check_remote_file_exists, compare_file_sizes, hsz]
        · have hb : (localSize == cl.getD 0) = false := by
            simp [Ne.symm hsz]
          cases putStatus <;>
            simp [upload_to_dufs, check_remote_file_exists, compare_file_sizes, hb, hsz]
      · have hb : ((some s : Option ℕ) == some 200) = false := by simp [h2]
        cases putStatus <;>
          simp [upload_to_dufs, check_remote_file_exists, compare_file_sizes, hb, h2]

/-- C5: for every existing local file whose byte length equals the length
reported for the already-existing remote file, the uploader issues no `PUT`
and reports success; in every other case (remote missing, `HEAD` failed, or
lengths differing) it performs the `PUT`. -/
theorem C5_size_match_skips_put :
    ∀ (localSize : ℕ) (r : Remote) (putStatus : Option ℕ),
      (r.headStatus = some 200 → r.contentLength.getD 0 = localSize →
          upload_to_dufs true localSize r putStatus = (false, true))
        ∧ (r.headStatus ≠ some 200 ∨ r.contentLength.getD 0 ≠ localSize →
          (upload_to_dufs true localSize r putStatus).1 = true) := by
  intro localSize r putStatus
  rw [upload_to_dufs_cases]
  constructor
  · intro h200 hsz
    rw [if_pos ⟨h200, hsz⟩]
  · intro h
    have hcond : ¬(r.headStatus = some 200 ∧ r.contentLength.getD 0 = localSize) := by
      rcases h with h | h <;> exact fun hc => h (by simp [hc.1, hc.2])
    rw [if_neg hcond]

theorem C5_size_match_skips_put_witness :
    ((⟨some 200, some 5⟩ : Remote).headStatus = some 200
      ∧ (⟨some 200, some 5⟩ : Remote).contentLength.getD 0 = 5
      ∧ upload_to_dufs true 5 ⟨some 200, some 5⟩ (some 200) = (false, true))
    ∧ ((⟨some 200, some 7⟩ : Remote).contentLength.getD 0 ≠ 5
      ∧ (upload_to_dufs true 5 ⟨some 200, some 7⟩ (some 200)).1 = true) :=
  ⟨⟨rfl, rfl, (C5_size_match_skips_put 5 ⟨some 200, some 5⟩ (some 200)).1 rfl rfl⟩,
    ⟨by decide,
      (C5_size_match_skips_put 5 ⟨some 200, some 7⟩ (some 200)).2 (Or.inr (by decide))⟩⟩

theorem scanIp_prefix_found :
    ∀ (pre post : List String) (ip : String), ip ∉ pre →
      scanIp (pre ++ ip :: post) ip (pre ++ ip :: post).length = some pre.length := by
  intro pre
  induction pre with
  | nil => intro post ip _; simp [scanIp]
  | cons a rest ih =>
      intro post ip hnm
      have ha : (a == ip) = false := by
        simp only [beq_eq_false_iff_ne]
        exact fun h => hnm (by simp [h])
      have hrec := ih post ip (fun h => hnm (List.mem_cons_of_mem a h))
      simp only [List.length_append, List.length_cons] at hrec
      simp [scanIp, ha, hrec]

theorem scanIp_not_mem :
    ∀ (addrs : List String) (ip : String) (b : ℕ),
      ip ∉ addrs → scanIp addrs ip b = none := by
  intro addrs
  induction addrs with
  | nil => intro ip b _; cases b <;> simp [scanIp]
  | cons a rest ih =>
      intro ip b hnm
      cases b with
      | zero => simp [scanIp]
      | succ n =>
          have ha : (a == ip) = false := by
            simp only [beq_eq_false_iff_ne]
            exact fun h => hnm (by simp [h])
          simp [scanIp, ha, ih ip n (fun h => hnm (List.mem_cons_of_mem a h))]

/-- C6: with a config file declaring N parties followed by its N addresses,
the resolver returns the index of the first address equal to the resolved
local address, and 0 when no address matches. -/
theorem C6_party_id_resolution :
    ∀ (first : String) (addrs : List String) (ip : String) (N : ℕ),
      pyInt first.toList = some (N : Int) → addrs.length = N →
      ((∀ pre post, addrs = pre ++ ip :: post → ip ∉ pre →
          find_party_id (first :: addrs) ip = some (pre.length : Int))
        ∧ (ip ∉ addrs → find_party_id (first :: addrs) ip = some 0)) := by
  intro first addrs ip N hparse hlen
  have hbound : min ((N : Int)).toNat addrs.length = addrs.length := by
    rw [Int.toNat_natCast, ← hlen, min_self]
  constructor
  · intro pre post heq hnm
    subst heq
    simp only [find_party_id, hparse, hbound]
    rw [scanIp_prefix_found pre post ip hnm]
  · intro hnm
    simp only [find_party_id, hparse, hbound]
    rw [scanIp_not_mem addrs ip _ hnm]

theorem C6_party_id_resolution_witness :
    pyInt ("3" : String).toList = some ((3 : ℕ) : Int)
      ∧ (["10.0.0.1", "10.0.0.2", "10.0.0.3"] : List String).length = 3
      ∧ find_party_id ["3", "10.0.0.1", "10.0.0.2", "10.0.0.3"] "10.0.0.2" = some 1
      ∧ find_party_id ["3", "10.0.0.1", "10.0.0.2", "10.0.0.3"] "9.9.9.9" = some 0 := by
  have h1 := C6_party_id_resolution "3" ["10.0.0.1", "10.0.0.2", "10.0.0.3"]
    "10.0.0.2" 3 (by decide) (by decide)
  have h2 := C6_party_id_resolution "3" ["10.0.0.1", "10.0.0.2", "10.0.0.3"]
    "9.9.9.9" 3 (by decide) (by decide)
  refine ⟨by decide, by decide, ?_, h2.2 (by decide)⟩
  simpa using h1.1 ["10.0.0.1"] ["10.0.0.3"] rfl (by decide)

/-- C7 counterexample: a config file declaring 2 parties but listing only one
address line (address count ≠ declared count) makes `validate_config` return
`(False, 0)` — a hard validation failure (`print_error`, abort), not a
warning-and-success. -/
theorem C7_counterexample :
    validate_config ["2", "10.0.0.1"] = (false, 0)
      ∧ validate_config ["2", "10.0.0.1"] ≠ (true, 2) := by
  exact ⟨by decide, by decide⟩

/-- C7 amended: the mismatch is asymmetric: when the config file has *more*
address lines than the declared party count, validation still succeeds (the
surplus is ignored; malformed-looking addresses at most warn), but when it
has *fewer* address lines than declared, validation fails hard with
`(False, 0)`. -/
theorem C7_amended_line_count :
    ∀ (first : String) (rest : List String) (n : Int),
      pyInt first.toList = some n →
      ((n + 1 ≤ ((first :: rest).length : Int) →
          validate_config (first :: rest) = (true, n))
        ∧ (((first :: rest).length : Int) < n + 1 →
          validate_config (first :: rest) = (false, 0))) := by
  intro first rest n hp
  constructor
  · intro h
    simp only [validate_config, hp]
    rw [if_neg (not_lt.mpr h)]
  · intro h
    simp only [validate_config, hp]
    rw [if_pos h]

theorem C7_amended_line_count_witness :
    pyInt ("2" : String).toList = some 2
      ∧ validate_config ["2", "10.0.0.1", "10.0.0.2", "10.0.0.3"] = (true, 2)
      ∧ pyInt ("3" : String).toList = some 3
      ∧ validate_config ["3", "10.0.0.1"] = (false, 0) := by
  refine ⟨by decide, ?_, by decide, ?_⟩
  · exact (C7_amended_line_count "2" ["10.0.0.1", "10.0.0.2", "10.0.0.3"] 2
      (by decide)).1 (by decide)
  · exact (C7_amended_line_count "3" ["10.0.0.1"] 3 (by decide)).2 (by decide)

/-- C10: once the pipeline reaches the benchmark step (dependencies present,
config URL set, config downloaded and validated), the process exit code is
`0` exactly when the benchmark succeeded, for every combination of per-file
upload outcomes — upload failures are logged and counted but never change
the exit status. -/
theorem C10_exit_code_follows_benchmark :
    ∀ c : RunConfig,
      c.depsOk = true → c.configUrl.isSome = true → c.configDownloadOk = true →
      (validate_config c.configLines).1 = true →
      exitCode c = if c.benchmarkOk then 0 else 1 := by
  intro c hdeps hurl hdl hval
  rcases Option.isSome_iff_exists.mp hurl with ⟨u, hu⟩
  simp [exitCode, mainResult, hdeps, hu, hdl, hval]

theorem C10_exit_code_follows_benchmark_witness :
    demoRun.benchmarkOk = true
      ∧ upload_results demoRun.uploadOutcomes = false
      ∧ exitCode demoRun = 0 := by
  refine ⟨rfl, by decide, ?_⟩
  have h := C10_exit_code_follows_benchmark demoRun rfl rfl rfl (by decide)
  simpa using h

/-- C8: on a non-empty result set with distinct party counts (the keys of the
analysis dict), the CSV writer emits the fixed header plus exactly one row
per party-count group, the rows sorted by strictly ascending party count,
each row holding the party count first and the record counts last; re-reading
the written rows recovers exactly the sorted result set — same ordering,
identical numeric fields — and the sorted set is a permutation of the input,
so no group is dropped or duplicated. -/
theorem C8_csv_writer_roundtrip :
    ∀ results : List (Int × LanStats),
      results ≠ [] → (results.map Prod.fst).Nodup →
      save_results_to_csv results
          = some (lanHeader, (sortByParty results).map (fun pr => lanRowOf pr.1 pr.2))
        ∧ ((sortByParty results).map (fun pr => lanRowOf pr.1 pr.2)).length = results.length
        ∧ ((sortByParty results).map Prod.fst).Sorted (· < ·)
        ∧ readResults ((sortByParty results).map (fun pr => lanRowOf pr.1 pr.2))
            = sortByParty results
        ∧ (sortByParty results).Perm results
        ∧ (∀ (p : Int) (s : LanStats),
            (lanRowOf p s).head? = some (Sum.inl p)
              ∧ (lanRowOf p s).getLast? = some (Sum.inl (s.round2_count : Int))) := by
  intro results hne hnd
  have hperm : (sortByParty results).Perm results :=
    List.perm_insertionSort _ results
  refine ⟨?_, ?_, ?_, ?_, hperm, fun p s => ⟨rfl, rfl⟩⟩
  · simp [save_results_to_csv, List.isEmpty_iff, hne]
  · rw [List.length_map]
    exact hperm.length_eq
  · haveI : IsTotal (Int × LanStats) (fun a b => a.1 ≤ b.1) :=
      ⟨fun a b => le_total a.1 b.1⟩
    haveI : IsTrans (Int × LanStats) (fun a b => a.1 ≤ b.1) :=
      ⟨fun _ _ _ hab hbc => le_trans hab hbc⟩
    have hs : (sortByParty results).Sorted (fun a b => a.1 ≤ b.1) :=
      List.sorted_insertionSort _ results
    have hs2 : ((sortByParty results).map Prod.fst).Sorted (· ≤ ·) :=
      List.Pairwise.map Prod.fst (fun _ _ h => h) hs
    have hnd2 : ((sortByParty results).map Prod.fst).Nodup :=
      (hperm.map Prod.fst).nodup_iff.mpr hnd
    exact hs2.lt_of_le hnd2
  · rw [readResults, List.filterMap_map]
    have hrow : ∀ pr : Int × LanStats, readRow (lanRowOf pr.1 pr.2) = some pr := by
      rintro ⟨p, s⟩
      simp [readRow, lanRowOf, Int.natCast_nonneg, Int.toNat_natCast]
    simp [Function.comp_def, hrow]

theorem C8_csv_writer_roundtrip_witness :
    save_results_to_csv [((4 : Int), (⟨15, 35, 4, 4⟩ : LanStats))]
      = some (lanHeader,
          [[Sum.inl 4, Sum.inr 15, Sum.inr 35, Sum.inl 4, Sum.inl 4]]) := by
  have h := (C8_csv_writer_roundtrip [((4 : Int), (⟨15, 35, 4, 4⟩ : LanStats))]
    (by simp) (by simp)).1
  simpa [sortByParty, lanRowOf] using h

end SSLE
